import Mathlib

/-!
Verification of the GuardianDrive storage-orchestration dashboard.

The repository is a React/TypeScript dashboard.  The data model lives in
`src/app/src/types/index.ts`; the components (`DriveHealth`, `AlertBanner`,
`StatsOverview`, `CostSavings`, `TierDistribution`) and the mock API
responses (`mockTieringPlan`, `mockCompressionData`, `mockCloudOptions`,
`mockDashboardSummary`) live in the remaining source files.  This file is a
shallow embedding of that code: numeric fields are modelled over `ℚ`
(JavaScript arithmetic on the values appearing here is exact), byte sizes
and counts over `ℕ`, and JavaScript division — which produces a non-finite
value (Infinity or NaN) on a zero divisor instead of raising — over
`Option ℚ` with `none` standing for the non-finite outcomes.
-/

namespace GuardianDrive

/-- Risk categories: the `risk_level` union type of `Drive` in
`src/app/src/types/index.ts`. -/
inductive RiskLevel : Type
  | LOW
  | MEDIUM
  | HIGH
  | CRITICAL
deriving DecidableEq, Repr

/-- Risk severity rank: larger means riskier.  `LOW` is the least severe. -/
def RiskLevel.rank : RiskLevel → ℕ
  | .LOW => 0
  | .MEDIUM => 1
  | .HIGH => 2
  | .CRITICAL => 3

/-- `HealthGauge.getColor` from the `DriveHealth` component: the colour of
the circular health gauge as a step function of the score. -/
def getColor (s : ℚ) : String :=
  if s ≥ 80 then "#10b981"
  else if s ≥ 60 then "#3b82f6"
  else if s ≥ 40 then "#f59e0b"
  else "#ef4444"

/-- The score→category step function shared by `HealthGauge.getColor` and
the `DrivesTab` detail panel (`health_score >= 80 / >= 60 / >= 40 / else`):
the four score bands are rendered with the colours of the LOW / MEDIUM /
HIGH / CRITICAL risk badges respectively. -/
def riskOfScore (s : ℚ) : RiskLevel :=
  if s ≥ 80 then .LOW
  else if s ≥ 60 then .MEDIUM
  else if s ≥ 40 then .HIGH
  else .CRITICAL

/-- The badge colour that the `RiskBadge` component assigns to each risk
level (the `text` field of its style record). -/
def riskColor : RiskLevel → String
  | .LOW => "#10b981"
  | .MEDIUM => "#3b82f6"
  | .HIGH => "#f59e0b"
  | .CRITICAL => "#ef4444"

/-- `TieringRecommendation` from `src/app/src/types/index.ts`. -/
structure TieringRecommendation : Type where
  file_id : String
  file_name : String
  current_tier : String
  recommended_tier : String
  recommended_cloud : String
  estimated_savings : ℚ
  migration_urgency : String
  reason : String
  confidence : ℚ
deriving DecidableEq, Repr

/-- `StrategyOption` from `src/app/src/types/index.ts`. -/
structure StrategyOption : Type where
  name : String
  description : String
  score : ℚ
  monthly_cost : ℚ
  risk_reduction : ℚ
  replication_factor : ℕ
  cloud_tier : String
  compression_level : String
deriving DecidableEq, Repr

/-- The `summary` record of `TieringPlanResponse` from
`src/app/src/types/index.ts`. -/
structure PlanSummary : Type where
  hot_to_warm : ℕ
  warm_to_cold : ℕ
  cold_to_archive : ℕ
  critical_migrations : ℕ
deriving DecidableEq, Repr

/-- `TieringPlanResponse` from `src/app/src/types/index.ts`. -/
structure TieringPlanResponse : Type where
  total_recommendations : ℕ
  total_estimated_savings : ℚ
  recommendations : List TieringRecommendation
  strategy_options : List StrategyOption
  summary : PlanSummary
deriving DecidableEq, Repr

/-- The position of a tier name in the HOT → WARM → COLD → ARCHIVE ladder
(the `tier` union of `FileItem` in `src/app/src/types/index.ts`). -/
def tierIndex : String → Option ℕ
  | "HOT" => some 0
  | "WARM" => some 1
  | "COLD" => some 2
  | "ARCHIVE" => some 3
  | _ => none

/-- Number of tier boundaries a recommendation crosses: the distance between
the current and the recommended tier on the HOT/WARM/COLD/ARCHIVE ladder. -/
def boundariesCrossed (r : TieringRecommendation) : ℕ :=
  match tierIndex r.current_tier, tierIndex r.recommended_tier with
  | some a, some b => max a b - min a b
  | _, _ => 0

/-- Tally of the recommendations in a list whose migration goes from tier
`src` to tier `dst`. -/
def transitionCount (l : List TieringRecommendation) (src dst : String) : ℕ :=
  (l.filter fun r => r.current_tier = src ∧ r.recommended_tier = dst).length

/-- `mockTieringPlan`: the `TieringPlanResponse` hardcoded in the App source
(lines 438–536 of the dashboard entry file). -/
def mockTieringPlan : TieringPlanResponse where
  total_recommendations := 23
  total_estimated_savings := 1245.30
  recommendations :=
    [ { file_id := "FILE-021"
        file_name := "error_logs_archive_2025.log"
        current_tier := "COLD"
        recommended_tier := "ARCHIVE"
        recommended_cloud := "AWS S3 Glacier Deep"
        estimated_savings := 324.50
        migration_urgency := "7_DAYS"
        reason := "Access pattern: 0% frequency, 100% recency - Never accessed"
        confidence := 0.95 },
      { file_id := "FILE-044"
        file_name := "legacy_database_dump.sql"
        current_tier := "ARCHIVE"
        recommended_tier := "ARCHIVE"
        recommended_cloud := "AWS S3 Glacier Deep"
        estimated_savings := 289.75
        migration_urgency := "30_DAYS"
        reason := "Access pattern: 0% frequency, 100% recency - Historical archive"
        confidence := 0.92 },
      { file_id := "FILE-039"
        file_name := "security_camera_footage.mp4"
        current_tier := "COLD"
        recommended_tier := "ARCHIVE"
        recommended_cloud := "AWS S3 Glacier Instant"
        estimated_savings := 198.40
        migration_urgency := "30_DAYS"
        reason := "Access pattern: 5% frequency, 85% recency - Rarely accessed"
        confidence := 0.88 },
      { file_id := "FILE-031"
        file_name := "email_archive_2025.pst"
        current_tier := "ARCHIVE"
        recommended_tier := "ARCHIVE"
        recommended_cloud := "AWS S3 Glacier Deep"
        estimated_savings := 156.20
        migration_urgency := "30_DAYS"
        reason := "Access pattern: 2% frequency, 90% recency - Compliance archive"
        confidence := 0.90 },
      { file_id := "FILE-009"
        file_name := "training_video_module1.mp4"
        current_tier := "WARM"
        recommended_tier := "COLD"
        recommended_cloud := "AWS S3 Glacier Instant"
        estimated_savings := 142.80
        migration_urgency := "7_DAYS"
        reason := "Access pattern: 15% frequency, 60% recency - Monthly access"
        confidence := 0.85 } ]
  strategy_options :=
    [ { name := "Conservative"
        description := "Maximum redundancy, high cost"
        score := 0.85
        monthly_cost := 7118.75
        risk_reduction := 95.0
        replication_factor := 3
        cloud_tier := "standard"
        compression_level := "none" },
      { name := "Balanced"
        description := "Recommended - optimal risk-cost balance"
        score := 0.42
        monthly_cost := 2847.50
        risk_reduction := 85.0
        replication_factor := 2
        cloud_tier := "intelligent_tiering"
        compression_level := "medium" },
      { name := "Aggressive"
        description := "Minimum cost, acceptable risk"
        score := 0.38
        monthly_cost := 1139.00
        risk_reduction := 70.0
        replication_factor := 1
        cloud_tier := "glacier_deep"
        compression_level := "heavy" } ]
  summary :=
    { hot_to_warm := 3
      warm_to_cold := 8
      cold_to_archive := 10
      critical_migrations := 2 }

/-- `CompressionRecommendation` from `src/app/src/types/index.ts`. -/
structure CompressionRecommendation : Type where
  file_id : String
  file_name : String
  current_size : ℕ
  compressed_size : ℕ
  compression_ratio : ℚ
  algorithm : String
  monthly_savings : ℚ
  compression_time : ℕ
  roi_score : ℚ
  recommend : Bool
deriving DecidableEq, Repr

/-- `CompressionResponse` from `src/app/src/types/index.ts`. -/
structure CompressionResponse : Type where
  total_recommendations : ℕ
  total_monthly_savings : ℚ
  total_size_reduction : String
  recommendations : List CompressionRecommendation
deriving DecidableEq, Repr

/-- `mockCompressionData`: the `CompressionResponse` hardcoded in the App
source (lines 538–604 of the dashboard entry file). -/
def mockCompressionData : CompressionResponse where
  total_recommendations := 12
  total_monthly_savings := 2847.50
  total_size_reduction := "45.2 GB"
  recommendations :=
    [ { file_id := "FILE-021"
        file_name := "error_logs_archive_2025.log"
        current_size := 4194304000
        compressed_size := 838860800
        compression_ratio := 0.80
        algorithm := "zstd-19"
        monthly_savings := 624.80
        compression_time := 180
        roi_score := 45.2
        recommend := true },
      { file_id := "FILE-006"
        file_name := "server_logs_2026_02.log"
        current_size := 838860800
        compressed_size := 167772160
        compression_ratio := 0.80
        algorithm := "zstd-19"
        monthly_savings := 124.96
        compression_time := 36
        roi_score := 42.8
        recommend := true },
      { file_id := "FILE-001"
        file_name := "sales_q4_2025.csv"
        current_size := 52428800
        compressed_size := 14680064
        compression_ratio := 0.72
        algorithm := "zstd-11"
        monthly_savings := 78.45
        compression_time := 12
        roi_score := 28.5
        recommend := true },
      { file_id := "FILE-004"
        file_name := "customer_data_analytics.json"
        current_size := 157286400
        compressed_size := 47185920
        compression_ratio := 0.70
        algorithm := "zstd-11"
        monthly_savings := 68.20
        compression_time := 28
        roi_score := 18.3
        recommend := true },
      { file_id := "FILE-043"
        file_name := "realtime_analytics_stream.json"
        current_size := 5368709120
        compressed_size := 1610612736
        compression_ratio := 0.70
        algorithm := "zstd-11"
        monthly_savings := 245.60
        compression_time := 180
        roi_score := 15.8
        recommend := true } ]

/-- `CloudOption` from `src/app/src/types/index.ts`. -/
structure CloudOption : Type where
  provider : String
  tier : String
  monthly_cost_per_gb : ℚ
  retrieval_time : String
  total_cost : ℚ
  savings_percent : ℚ
deriving DecidableEq, Repr

/-- `mockCloudOptions`: the `CloudOption` list hardcoded in the App source
(lines 606–631 of the dashboard entry file). -/
def mockCloudOptions : List CloudOption :=
  [ { provider := "AWS"
      tier := "S3 Glacier Deep Archive"
      monthly_cost_per_gb := 0.08
      retrieval_time := "12-48 hours"
      total_cost := 987.40
      savings_percent := 65.3 },
    { provider := "Azure"
      tier := "Blob Archive"
      monthly_cost_per_gb := 0.08
      retrieval_time := "12 hours"
      total_cost := 987.40
      savings_percent := 65.3 },
    { provider := "GCP"
      tier := "Cloud Storage Archive"
      monthly_cost_per_gb := 0.10
      retrieval_time := "Instant"
      total_cost := 1234.25
      savings_percent := 56.7 } ]

/-- Alert severities: the `severity` union type of `Alert` in
`src/app/src/types/index.ts`. -/
inductive Severity : Type
  | critical
  | high
  | medium
  | low
deriving DecidableEq, Repr

/-- `Alert` from `src/app/src/types/index.ts`. -/
structure Alert : Type where
  id : String
  drive_id : String
  severity : Severity
  message : String
  recommended_action : String
  timestamp : String
  acknowledged : Bool
deriving DecidableEq, Repr

/-- `AlertList` (AlertBanner component file): `alerts.slice(0, maxDisplay)`,
the alerts actually rendered. -/
def displayedAlerts (alerts : List Alert) (maxDisplay : ℕ) : List Alert :=
  alerts.take maxDisplay

/-- `AlertList`: `alerts.length - maxDisplay`, shown as "+ N more alerts"
only when positive.  JavaScript subtraction can go negative, hence `ℤ`. -/
def remainingCount (alerts : List Alert) (maxDisplay : ℕ) : ℤ :=
  (alerts.length : ℤ) - (maxDisplay : ℤ)

/-- JavaScript division over the exact rationals of this dashboard: a zero
divisor yields a non-finite number (`x/0` is ±Infinity, `0/0` is NaN), never
an exception; `none` stands for those non-finite outcomes. -/
def jsDiv (a b : ℚ) : Option ℚ :=
  if b = 0 then none else some (a / b)

/-- `SavingsSummary` (CostSavings component file):
`(strategy.savings / current_monthly_cost * 100)` — the savings percentage
it computes for each strategy card, before `toFixed(1)` formatting.  The
division is not guarded against `current_monthly_cost = 0`. -/
def savingsSummaryPercent (savings current_monthly_cost : ℚ) : Option ℚ :=
  (jsDiv savings current_monthly_cost).map (· * 100)

/-- The `health_summary` record of `DashboardSummary` from
`src/app/src/types/index.ts`. -/
structure HealthSummary : Type where
  average_health_score : ℚ
  critical_drives : ℕ
  high_risk_drives : ℕ
  healthy_drives : ℕ
deriving DecidableEq, Repr

/-- `HealthStatusCard` (StatsOverview component file):
`healthy_drives + high_risk_drives + critical_drives`. -/
def totalDrives (h : HealthSummary) : ℕ :=
  h.healthy_drives + h.high_risk_drives + h.critical_drives

/-- `HealthStatusCard`: the per-segment bar percentage
`totalDrives > 0 ? (segment.count / totalDrives) * 100 : 0`. -/
def segmentPercentage (h : HealthSummary) (count : ℕ) : ℚ :=
  if 0 < totalDrives h then ((count : ℚ) / (totalDrives h : ℚ)) * 100 else 0

/-- One value of the `TierDistribution` record type from
`src/app/src/types/index.ts` (`{ files, size_gb }`). -/
structure TierInfo : Type where
  files : ℕ
  size_gb : ℚ
deriving DecidableEq, Repr

/-- A `TierDistribution`: an object keyed by tier name, embedded as an
association list in the object's key order. -/
def TierDist : Type := List (String × TierInfo)

/-- `TierStats` (TierDistribution component file): total file count,
`Object.values(data).reduce((sum, t) => sum + t.files, 0)`. -/
def distTotalFiles (d : TierDist) : ℕ :=
  (d.map fun e => e.2.files).sum

/-- `TierStats`: total size, `reduce((sum, t) => sum + t.size_gb, 0)`. -/
def distTotalSize (d : TierDist) : ℚ :=
  (d.map fun e => e.2.size_gb).sum

/-- JavaScript `Number.prototype.toFixed(1)` on the exact rationals of this
dashboard: round to one decimal place (ties away from zero) and print. -/
def jsToFixed1 (q : ℚ) : String :=
  let n : ℤ := if q < 0 then -⌊-q * 10 + 1/2⌋ else ⌊q * 10 + 1/2⌋
  let sign := if n < 0 then "-" else ""
  sign ++ toString (n.natAbs / 10) ++ "." ++ toString (n.natAbs % 10)

/-- `TierStats`: the per-tier file percentage
`totalFiles > 0 ? (info.files / totalFiles * 100).toFixed(1) : '0'`. -/
def percentFiles (d : TierDist) (info : TierInfo) : String :=
  if 0 < distTotalFiles d then
    jsToFixed1 ((info.files : ℚ) / (distTotalFiles d : ℚ) * 100)
  else "0"

/-- `TierStats`: the per-tier size percentage
`totalSize > 0 ? (info.size_gb / totalSize * 100).toFixed(1) : '0'`. -/
def percentSize (d : TierDist) (info : TierInfo) : String :=
  if 0 < distTotalSize d then
    jsToFixed1 (info.size_gb / distTotalSize d * 100)
  else "0"

/-- Modelled from the spec: `DriveTelemetry` (§3) — the Health Scorer's
input snapshot.  The scorer itself is absent from the repository (the spec
records that the source contains no implemented decision logic); fields
follow §3 and the `Drive` record of `src/app/src/types/index.ts`. -/
structure DriveTelemetry : Type where
  drive_id : String
  capacity : ℚ
  used : ℚ
  temperature : ℚ
  power_on_hours : ℚ
  reallocated_sectors : ℕ
  pending_sectors : ℕ
  read_error_rate : ℕ
  write_error_rate : ℕ
  udma_crc_errors : ℕ
  seek_error_rate : ℕ
deriving DecidableEq, Repr

/-- Modelled from the spec: the tunable weight/ceiling configuration of the
Health Scorer (§4.1, §9 — weights are configuration, not hardcoded). -/
structure ScorerConfig : Type where
  wRealloc : ℚ
  wPending : ℚ
  wCrc : ℚ
  wTemp : ℚ
  wRead : ℚ
  wWrite : ℚ
  wSeek : ℚ
  ceilRealloc : ℚ
  ceilPending : ℚ
  ceilCrc : ℚ
  ceilTemp : ℚ
  ceilRead : ℚ
  ceilWrite : ℚ
  ceilSeek : ℚ
  tempSafe : ℚ
deriving DecidableEq, Repr

/-- Modelled from the spec: a default configuration.  Weight order follows
§4.1 (reallocated sectors highest, then pending sectors, UDMA CRC errors,
temperature excess, error rates); the reallocated/pending/CRC ceilings are
the `max` values the `SmartBar` gauges use in the DriveHealth component
(100, 50, 30); the safe temperature is the 45 °C threshold above which the
component renders the temperature in warning colours. -/
def defaultScorerConfig : ScorerConfig where
  wRealloc := 30
  wPending := 25
  wCrc := 15
  wTemp := 10
  wRead := 8
  wWrite := 7
  wSeek := 5
  ceilRealloc := 100
  ceilPending := 50
  ceilCrc := 30
  ceilTemp := 30
  ceilRead := 100
  ceilWrite := 100
  ceilSeek := 100
  tempSafe := 45

/-- Modelled from the spec: an indicator normalized against its domain
ceiling (§4.1), capped at 1. -/
def normalizedIndicator (v ceil : ℚ) : ℚ :=
  min 1 (v / ceil)

/-- Modelled from the spec: the weighted SMART penalty Σ(normalized ×
weight) of §4.1.  Temperature contributes only its excess above the safe
threshold. -/
def smartPenalty (cfg : ScorerConfig) (t : DriveTelemetry) : ℚ :=
  cfg.wRealloc * normalizedIndicator (t.reallocated_sectors : ℚ) cfg.ceilRealloc
  + cfg.wPending * normalizedIndicator (t.pending_sectors : ℚ) cfg.ceilPending
  + cfg.wCrc * normalizedIndicator (t.udma_crc_errors : ℚ) cfg.ceilCrc
  + cfg.wTemp * normalizedIndicator (max 0 (t.temperature - cfg.tempSafe)) cfg.ceilTemp
  + cfg.wRead * normalizedIndicator (t.read_error_rate : ℚ) cfg.ceilRead
  + cfg.wWrite * normalizedIndicator (t.write_error_rate : ℚ) cfg.ceilWrite
  + cfg.wSeek * normalizedIndicator (t.seek_error_rate : ℚ) cfg.ceilSeek

/-- Modelled from the spec: `health_score = 100 − Σ(normalized_indicator ×
weight)`, clamped to `[0, 100]` (§4.1). -/
def healthScore (cfg : ScorerConfig) (t : DriveTelemetry) : ℚ :=
  max 0 (min 100 (100 - smartPenalty cfg t))

/-- Modelled from the spec: `predicted_failure_days` is null when the score
is at or above the HIGH/CRITICAL boundary (40); otherwise an inverse
function of how far below the threshold the score sits, bounded to the
documented 5–45 day range (§4.1). -/
def predictedFailureDays (cfg : ScorerConfig) (t : DriveTelemetry) : Option ℚ :=
  if 40 ≤ healthScore cfg t then none
  else some (max 5 (min 45 (5 + healthScore cfg t)))

/-- Modelled from the spec: the `DriveHealth` output of the scorer (§3),
restricted to the fields the verified claims mention. -/
structure DriveHealthResult : Type where
  health_score : ℚ
  risk_level : RiskLevel
  predicted_failure_days : Option ℚ
deriving DecidableEq, Repr

/-- Modelled from the spec: `score(telemetry) -> DriveHealth` (§4.1), a pure
function of the input snapshot.  The risk level is the step function of the
health score shared with the dashboard's `riskOfScore`. -/
def score (cfg : ScorerConfig) (t : DriveTelemetry) : DriveHealthResult where
  health_score := healthScore cfg t
  risk_level := riskOfScore (healthScore cfg t)
  predicted_failure_days := predictedFailureDays cfg t

/-- The §4.1 example telemetry: zero reallocated/pending sectors, 35 °C,
all error counters zero. -/
def exampleTelemetry : DriveTelemetry where
  drive_id := "DRIVE-001"
  capacity := 1000
  used := 500
  temperature := 35
  power_on_hours := 12000
  reallocated_sectors := 0
  pending_sectors := 0
  read_error_rate := 0
  write_error_rate := 0
  udma_crc_errors := 0
  seek_error_rate := 0

/-- Modelled from the spec: the operations permitted on the alert set (§3
Alert) — alerts are created, acknowledged, or superseded by a newer alert
for the same condition.  No alert-store code exists in the repository (the
dashboard renders a static alert list and wires no mutation handler), so
the store is taken from the spec's words; there is no delete operation. -/
inductive AlertOp : Type
  | create (a : Alert)
  | acknowledge (id : String)
  | supersede (oldId : String) (a : Alert)
deriving DecidableEq, Repr

/-- Modelled from the spec: an alert in the store, carrying the superseded
marking alongside the alert itself. -/
structure StoredAlert : Type where
  alert : Alert
  superseded : Bool
deriving DecidableEq, Repr

/-- Modelled from the spec: one step of the alert store.  Creation appends;
acknowledgment sets the `acknowledged` flag of the matching alert;
supersession marks the old alert superseded and appends the newer one.
Nothing is ever removed. -/
def applyAlertOp (s : List StoredAlert) : AlertOp → List StoredAlert
  | .create a => s ++ [⟨a, false⟩]
  | .acknowledge i =>
      s.map fun sa =>
        if sa.alert.id = i then ⟨{ sa.alert with acknowledged := true }, sa.superseded⟩
        else sa
  | .supersede i a =>
      (s.map fun sa => if sa.alert.id = i then ⟨sa.alert, true⟩ else sa) ++ [⟨a, false⟩]

/-- Modelled from the spec: running a sequence of alert-set operations. -/
def runAlertOps (s : List StoredAlert) (ops : List AlertOp) : List StoredAlert :=
  ops.foldl applyAlertOp s

/-- The fields of an alert that identify it and that no operation may
change: everything except the `acknowledged` flag. -/
def sameCore (a b : Alert) : Prop :=
  a.id = b.id ∧ a.drive_id = b.drive_id ∧ a.severity = b.severity
  ∧ a.message = b.message ∧ a.recommended_action = b.recommended_action
  ∧ a.timestamp = b.timestamp

instance (a b : Alert) : Decidable (sameCore a b) := by
  unfold sameCore
  infer_instance

lemma sameCore_refl (a : Alert) : sameCore a a := by
  simp [sameCore]

lemma sameCore_trans {a b c : Alert} (h₁ : sameCore a b) (h₂ : sameCore b c) :
    sameCore a c := by
  obtain ⟨h1, h2, h3, h4, h5, h6⟩ := h₁
  obtain ⟨g1, g2, g3, g4, g5, g6⟩ := h₂
  exact ⟨h1.trans g1, h2.trans g2, h3.trans g3, h4.trans g4, h5.trans g5, h6.trans g6⟩

lemma applyAlertOp_preserves (op : AlertOp) (s : List StoredAlert)
    (sa : StoredAlert) (h : sa ∈ s) :
    ∃ sa' ∈ applyAlertOp s op, sameCore sa.alert sa'.alert := by
  cases op with
  | create a =>
      exact ⟨sa, List.mem_append_left _ h, sameCore_refl _⟩
  | acknowledge i =>
      refine ⟨_, List.mem_map_of_mem _ h, ?_⟩
      by_cases hid : sa.alert.id = i <;> simp [hid, sameCore]
  | supersede i a =>
      refine ⟨_, List.mem_append_left _ (List.mem_map_of_mem _ h), ?_⟩
      by_cases hid : sa.alert.id = i <;> simp [hid, sameCore]

/-- A concrete alert in the shape of the dashboard's alert records, used by
the witness theorems. -/
def exAlertA : Alert where
  id := "ALERT-001"
  drive_id := "DRIVE-003"
  severity := .critical
  message := "Drive failure predicted within 7 days"
  recommended_action := "Backup data immediately and replace drive"
  timestamp := "2026-02-01T09:00:00Z"
  acknowledged := false

/-- A second concrete alert for the witness theorems. -/
def exAlertB : Alert where
  id := "ALERT-002"
  drive_id := "DRIVE-005"
  severity := .high
  message := "Temperature above safe threshold"
  recommended_action := "Improve cooling and airflow"
  timestamp := "2026-02-01T10:30:00Z"
  acknowledged := false

/-- A health summary with zero drives in every bucket, used by the witness
of the aggregate-percentage claim. -/
def exEmptyHealthSummary : HealthSummary where
  average_health_score := 62.6
  critical_drives := 0
  high_risk_drives := 0
  healthy_drives := 0

/-- C1: in the `TieringPlanResponse` the dashboard produces
(`mockTieringPlan`), no emitted recommendation crosses more than one tier
boundary, yet hot_to_warm + warm_to_cold + cold_to_archive = 21 while
total_recommendations = 23, and the summary counts (3, 8, 10) are not
tallies of the emitted recommendation set (whose actual transition tallies
are 0, 1, 2).  The four counts including critical_migrations do sum to
total_recommendations. -/
theorem mock_tiering_summary_counts_inconsistent :
    (mockTieringPlan.recommendations.all fun r => boundariesCrossed r ≤ 1) = true
    ∧ mockTieringPlan.summary.hot_to_warm + mockTieringPlan.summary.warm_to_cold
        + mockTieringPlan.summary.cold_to_archive = 21
    ∧ mockTieringPlan.total_recommendations = 23
    ∧ transitionCount mockTieringPlan.recommendations "HOT" "WARM" = 0
    ∧ transitionCount mockTieringPlan.recommendations "WARM" "COLD" = 1
    ∧ transitionCount mockTieringPlan.recommendations "COLD" "ARCHIVE" = 2
    ∧ mockTieringPlan.summary.hot_to_warm + mockTieringPlan.summary.warm_to_cold
        + mockTieringPlan.summary.cold_to_archive
        + mockTieringPlan.summary.critical_migrations
        = mockTieringPlan.total_recommendations := by
  decide

/-- C2: the score→risk-category mapping used by the dashboard
(`HealthGauge.getColor` and the `DrivesTab` score bands) is the exact step
function score ≥ 80 → LOW, ≥ 60 → MEDIUM, ≥ 40 → HIGH, otherwise CRITICAL:
the four bands are characterised exactly (hence exhaustive and
non-overlapping), and the mapping is monotone — a lower score never yields
a lower-risk category than a higher score. -/
theorem risk_level_step_function_monotone (s t : ℚ)
    (_h0 : 0 ≤ s) (_h100 : s ≤ 100) (hst : s ≤ t) :
    getColor s = riskColor (riskOfScore s)
    ∧ (riskOfScore s = .LOW ↔ 80 ≤ s)
    ∧ (riskOfScore s = .MEDIUM ↔ 60 ≤ s ∧ s < 80)
    ∧ (riskOfScore s = .HIGH ↔ 40 ≤ s ∧ s < 60)
    ∧ (riskOfScore s = .CRITICAL ↔ s < 40)
    ∧ (riskOfScore t).rank ≤ (riskOfScore s).rank := by
  have hcolor : getColor s = riskColor (riskOfScore s) := by
    simp only [getColor, riskOfScore, riskColor]
    split_ifs <;> rfl
  have hlow : riskOfScore s = .LOW ↔ 80 ≤ s := by
    unfold riskOfScore
    split_ifs with h1 h2 h3
    · exact iff_of_true rfl h1
    · exact iff_of_false (by simp) h1
    · exact iff_of_false (by simp) h1
    · exact iff_of_false (by simp) h1
  have hmed : riskOfScore s = .MEDIUM ↔ 60 ≤ s ∧ s < 80 := by
    unfold riskOfScore
    split_ifs with h1 h2 h3
    · exact iff_of_false (by simp) (fun hc => absurd h1 (not_le.mpr hc.2))
    · exact iff_of_true rfl ⟨h2, not_le.mp h1⟩
    · exact iff_of_false (by simp) (fun hc => h2 hc.1)
    · exact iff_of_false (by simp) (fun hc => h2 hc.1)
  have hhigh : riskOfScore s = .HIGH ↔ 40 ≤ s ∧ s < 60 := by
    unfold riskOfScore
    split_ifs with h1 h2 h3
    · exact iff_of_false (by simp)
        (fun hc => absurd h1 (not_le.mpr (hc.2.trans_le (by norm_num))))
    · exact iff_of_false (by simp) (fun hc => absurd h2 (not_le.mpr hc.2))
    · exact iff_of_true rfl ⟨h3, not_le.mp h2⟩
    · exact iff_of_false (by simp) (fun hc => h3 hc.1)
  have hcrit : riskOfScore s = .CRITICAL ↔ s < 40 := by
    unfold riskOfScore
    split_ifs with h1 h2 h3
    · exact iff_of_false (by simp)
        (fun hc => absurd h1 (not_le.mpr (hc.trans_le (by norm_num))))
    · exact iff_of_false (by simp)
        (fun hc => absurd h2 (not_le.mpr (hc.trans_le (by norm_num))))
    · exact iff_of_false (by simp) (fun hc => absurd h3 (not_le.mpr hc))
    · exact iff_of_true rfl (not_le.mp h3)
  have hmono : (riskOfScore t).rank ≤ (riskOfScore s).rank := by
    simp only [riskOfScore]
    split_ifs <;> simp_all [RiskLevel.rank] <;> linarith
  exact ⟨hcolor, hlow, hmed, hhigh, hcrit, hmono⟩

/-- Witness for C2 at the concrete scores 50 and 85. -/
theorem risk_level_step_function_monotone_witness :
    getColor 50 = riskColor (riskOfScore 50)
    ∧ (riskOfScore 50 = .LOW ↔ (80 : ℚ) ≤ 50)
    ∧ (riskOfScore 50 = .MEDIUM ↔ (60 : ℚ) ≤ 50 ∧ (50 : ℚ) < 80)
    ∧ (riskOfScore 50 = .HIGH ↔ (40 : ℚ) ≤ 50 ∧ (50 : ℚ) < 60)
    ∧ (riskOfScore 50 = .CRITICAL ↔ (50 : ℚ) < 40)
    ∧ (riskOfScore 85).rank ≤ (riskOfScore 50).rank :=
  risk_level_step_function_monotone 50 85 (by norm_num) (by norm_num) (by norm_num)

/-- C3: in the `CloudOption` list the dashboard emits (`mockCloudOptions`),
no savings_percent is negative, the list is sorted ascending by total_cost,
and the option with the minimal total_cost (987.40) appears first. -/
theorem cloud_options_nonneg_savings_sorted :
    (mockCloudOptions.all fun o => 0 ≤ o.savings_percent) = true
    ∧ List.Pairwise (fun a b => a.total_cost ≤ b.total_cost) mockCloudOptions
    ∧ mockCloudOptions.head?.map CloudOption.total_cost = some 987.40
    ∧ (mockCloudOptions.all fun o => (987.40 : ℚ) ≤ o.total_cost) = true := by
  refine ⟨?_, ?_, ?_, ?_⟩ <;>
    norm_num [mockCloudOptions, List.pairwise_cons, List.all_cons]

/-- C4: the savings percentage `SavingsSummary` computes is an unguarded
division, so on an input with current_monthly_cost = 0 it is a non-finite
JavaScript number (Infinity for positive savings, NaN for zero savings),
not the defined fallback 0 the specification documents. -/
theorem savings_percent_unguarded_zero_cost :
    savingsSummaryPercent 1200 0 = none
    ∧ savingsSummaryPercent 0 0 = none := by
  decide

/-- C5: every `CompressionRecommendation` the dashboard emits
(`mockCompressionData`) satisfies compressed_size ≤ current_size and
compression_ratio = 1 − compressed_size/current_size. -/
theorem compression_sizes_and_ratio_consistent :
    (mockCompressionData.recommendations.all fun r =>
      r.compressed_size ≤ r.current_size) = true
    ∧ (mockCompressionData.recommendations.all fun r =>
        r.compression_ratio
          = 1 - (r.compressed_size : ℚ) / (r.current_size : ℚ)) = true := by
  refine ⟨by decide, ?_⟩
  norm_num [mockCompressionData, List.all_cons]

/-- C6: the planning run renders exactly three strategy options named
Conservative, Balanced, Aggressive in that order, with strictly decreasing
monthly_cost and strictly decreasing risk_reduction (so Conservative has
the highest of both and Aggressive the lowest — increasing risk, decreasing
cost). -/
theorem strategy_options_canonical :
    mockTieringPlan.strategy_options.map StrategyOption.name
      = ["Conservative", "Balanced", "Aggressive"]
    ∧ mockTieringPlan.strategy_options.length = 3
    ∧ List.Pairwise
        (fun a b => b.monthly_cost < a.monthly_cost
          ∧ b.risk_reduction < a.risk_reduction)
        mockTieringPlan.strategy_options := by
  refine ⟨rfl, rfl, ?_⟩
  norm_num [mockTieringPlan, List.pairwise_cons]

/-- Auxiliary evaluation: the spec-modelled Health Scorer gives the §4.1
example telemetry a perfect score. -/
lemma healthScore_example : healthScore defaultScorerConfig exampleTelemetry = 100 := by
  norm_num [healthScore, smartPenalty, normalizedIndicator, defaultScorerConfig,
    exampleTelemetry, min_def, max_def]

/-- C7: on the spec's example telemetry (all SMART counters zero,
temperature 35) the spec-modelled Health Scorer returns health_score = 100,
risk_level = LOW and predicted_failure_days = null; and the scorer is a
pure function — identical telemetry snapshots yield identical output. -/
theorem health_scorer_example_deterministic :
    score defaultScorerConfig exampleTelemetry
      = ⟨100, RiskLevel.LOW, none⟩
    ∧ ∀ t₁ t₂ : DriveTelemetry, t₁ = t₂ →
        score defaultScorerConfig t₁ = score defaultScorerConfig t₂ := by
  constructor
  · simp only [score, DriveHealthResult.mk.injEq]
    refine ⟨healthScore_example, ?_, ?_⟩
    · norm_num [riskOfScore, healthScore_example]
    · norm_num [predictedFailureDays, healthScore_example]
  · intro t₁ t₂ h
    rw [h]

/-- Witness for C7: determinism applied to the example snapshot itself. -/
theorem health_scorer_example_deterministic_witness :
    score defaultScorerConfig exampleTelemetry
      = score defaultScorerConfig exampleTelemetry :=
  health_scorer_example_deterministic.2 exampleTelemetry exampleTelemetry rfl

/-- C8: in the spec-modelled alert store, every alert present in a state is
still present after any sequence of operations (alerts are never deleted),
and its identifying fields — everything except the acknowledged flag and
the superseded marking — are unchanged: acknowledgment and supersession
marking are the only mutations. -/
theorem alerts_never_deleted_core_immutable
    (ops : List AlertOp) (s : List StoredAlert) (sa : StoredAlert) (h : sa ∈ s) :
    ∃ sa' ∈ runAlertOps s ops, sameCore sa.alert sa'.alert := by
  induction ops generalizing s sa with
  | nil => exact ⟨sa, h, sameCore_refl _⟩
  | cons op rest ih =>
      obtain ⟨sb, hsb, hcore⟩ := applyAlertOp_preserves op s sa h
      obtain ⟨sc, hsc, hcore2⟩ := ih (applyAlertOp s op) sb hsb
      exact ⟨sc, hsc, sameCore_trans hcore hcore2⟩

/-- Witness for C8: a store holding one concrete alert, acknowledged and
then superseded — the original alert survives with its core intact. -/
theorem alerts_never_deleted_core_immutable_witness :
    ∃ sa' ∈ runAlertOps [⟨exAlertA, false⟩]
        [AlertOp.acknowledge "ALERT-001", AlertOp.supersede "ALERT-001" exAlertB],
      sameCore exAlertA sa'.alert :=
  alerts_never_deleted_core_immutable
    [AlertOp.acknowledge "ALERT-001", AlertOp.supersede "ALERT-001" exAlertB]
    [⟨exAlertA, false⟩] ⟨exAlertA, false⟩ (by decide)

/-- C9: `AlertList` renders exactly the first min(maxDisplay, length)
alerts, in their input order, and its "+ N more" count is positive exactly
when length > maxDisplay, in which case it equals length − maxDisplay. -/
theorem alert_list_take_semantics (alerts : List Alert) (maxDisplay i : ℕ)
    (hi : i < min maxDisplay alerts.length) :
    (displayedAlerts alerts maxDisplay).length = min maxDisplay alerts.length
    ∧ (displayedAlerts alerts maxDisplay)[i]? = alerts[i]?
    ∧ (0 < remainingCount alerts maxDisplay ↔ maxDisplay < alerts.length)
    ∧ (maxDisplay < alerts.length →
        remainingCount alerts maxDisplay
          = (alerts.length : ℤ) - (maxDisplay : ℤ)) := by
  refine ⟨List.length_take _ _, ?_, ?_, fun _ => rfl⟩
  · unfold displayedAlerts
    rw [List.getElem?_take, if_pos (lt_min_iff.mp hi).1]
  · unfold remainingCount
    omega

/-- Witness for C9: two concrete alerts with maxDisplay = 1. -/
theorem alert_list_take_semantics_witness :
    (displayedAlerts [exAlertA, exAlertB] 1).length
      = min 1 ([exAlertA, exAlertB] : List Alert).length
    ∧ (displayedAlerts [exAlertA, exAlertB] 1)[0]?
      = ([exAlertA, exAlertB] : List Alert)[0]?
    ∧ (0 < remainingCount [exAlertA, exAlertB] 1
        ↔ 1 < ([exAlertA, exAlertB] : List Alert).length)
    ∧ (1 < ([exAlertA, exAlertB] : List Alert).length →
        remainingCount [exAlertA, exAlertB] 1
          = (([exAlertA, exAlertB] : List Alert).length : ℤ) - ((1 : ℕ) : ℤ)) :=
  alert_list_take_semantics [exAlertA, exAlertB] 1 0 (by decide)

/-- C10: the aggregate views guard every percentage against a zero total:
with zero total drives each `HealthStatusCard` segment percentage is 0 (not
NaN), and with zero total files or zero total size each `TierStats`
percentage is the string "0". -/
theorem aggregate_percentages_zero_guarded
    (h : HealthSummary) (d : TierDist) (info : TierInfo)
    (hd : totalDrives h = 0) (hf : distTotalFiles d = 0) (hs : distTotalSize d = 0) :
    segmentPercentage h h.healthy_drives = 0
    ∧ segmentPercentage h h.high_risk_drives = 0
    ∧ segmentPercentage h h.critical_drives = 0
    ∧ percentFiles d info = "0"
    ∧ percentSize d info = "0" := by
  refine ⟨?_, ?_, ?_, ?_, ?_⟩ <;>
    simp [segmentPercentage, percentFiles, percentSize, hd, hf, hs]

/-- Witness for C10: an empty health summary and an empty tier
distribution. -/
theorem aggregate_percentages_zero_guarded_witness :
    segmentPercentage exEmptyHealthSummary exEmptyHealthSummary.healthy_drives = 0
    ∧ segmentPercentage exEmptyHealthSummary exEmptyHealthSummary.high_risk_drives = 0
    ∧ segmentPercentage exEmptyHealthSummary exEmptyHealthSummary.critical_drives = 0
    ∧ percentFiles ([] : TierDist) ⟨0, 0⟩ = "0"
    ∧ percentSize ([] : TierDist) ⟨0, 0⟩ = "0" :=
  aggregate_percentages_zero_guarded exEmptyHealthSummary ([] : TierDist) ⟨0, 0⟩
    (by decide) rfl (by norm_num [distTotalSize])

end GuardianDrive
